import Mathlib

/-!
Verification of the Market America recipe-execution clients.

The repository has two near-duplicate Python clients that trigger a remote
Composio "recipe" over HTTP and persist an execution log:

  * `.github/scripts/run_recipe.py`     — the v-legacy client (`run_recipe_legacy` here)
  * `.github/scripts/run_recipe_v3.py`  — the v-rube client   (`run_recipe_v3` here)

The embedding below models each script as a function of

  * the resolved environment (`Env`, the `os.environ.get` reads),
  * the result of the single HTTP POST (`NetResult`: timeout, transport error,
    or a response carrying its status code, raw text, and the result of
    JSON-parsing that text),
  * whether the write of `execution_log.json` succeeds (`writeOk`),
  * the timestamp string used for the record's `execution_time` field.

It returns the classified outcome, the process exit code (Python exits with 1
on an uncaught exception, which we track as a distinct `Outcome.uncaught`),
the list of records successfully written to `execution_log.json`, and the
number of HTTP requests issued.

JSON values are modelled structurally; numbers as integers (no claim involves
fractional numbers).  A written record is its ordered field list, which is in
bijection with the serialized bytes since `json.dump(..., indent=2,
ensure_ascii=False)` is a deterministic function of the ordered dict.
Stringified Python exception messages that the scripts only pass through
(`str(e)` of an HTTPError, a timeout, a JSON decode error, an AttributeError,
an OSError on open) are modelled as abstract strings; no claim depends on
their exact text.  `response.json()` on an unparsable body is modelled as
raising a `requests` `RequestException` (requests ≥ 2.27, where
`requests.exceptions.JSONDecodeError` subclasses it).
-/

/-- A JSON value, as produced by Python's `json` module (numbers restricted to
integers, which covers everything the scripts touch). -/
inductive Json where
  | null
  | bool (b : Bool)
  | num (n : Int)
  | str (s : String)
  | arr (elems : List Json)
  | obj (members : List (String × Json))
deriving Repr, BEq, Inhabited

namespace Json

/-- Python truthiness of a JSON value (`if execution_id:`, `if result.get("success")`). -/
def truthy : Json → Bool
  | .null => false
  | .bool b => b
  | .num n => n != 0
  | .str s => s != ""
  | .arr es => !es.isEmpty
  | .obj ms => !ms.isEmpty

/-- Whether the value is a JSON object (a Python `dict`, the only values on
which `.get` does not raise `AttributeError`). -/
def isObj : Json → Bool
  | .obj _ => true
  | _ => false

/-- Python `value == "success"`: equality holds only for that exact string. -/
def eqStrSuccess : Json → Bool
  | .str s => s == "success"
  | _ => false

end Json

/-- First binding of a key in an ordered field list (Python `dict` keys are
unique, so this is `dict.__getitem__`; `none` models `dict.get`'s `None`). -/
def lookupField : List (String × Json) → String → Option Json
  | [], _ => none
  | (k, v) :: rest, key => if k == key then some v else lookupField rest key

/-- Python `{**base, **data}` step: setting a key updates it in place when
present, else appends it (insertion-order semantics of `dict`). -/
def dictInsert (d : List (String × Json)) (k : String) (v : Json) :
    List (String × Json) :=
  if d.any (fun p => p.1 == k) then
    d.map (fun p => if p.1 == k then (k, v) else p)
  else
    d ++ [(k, v)]

/-- Python `{**base, **data}`: fold every pair of `data` into `base`. -/
def dictMerge (base data : List (String × Json)) : List (String × Json) :=
  data.foldl (fun acc p => dictInsert acc p.1 p.2) base

/-- The resolved environment: each field is `os.environ.get` of the
corresponding variable (`none` = unset). -/
structure Env where
  composio_api_key : Option String
  recipe_id : Option String
  prospect_spreadsheet_id : Option String
  line_log_spreadsheet_id : Option String
  email_recipient : Option String
  calendar_id : Option String
  days_ahead : Option String
  top_n_prospects : Option String
deriving Repr, DecidableEq

/-- Python truthiness of `os.environ.get(k)`: false for unset (`None`) and for
the empty string (`if not api_key`). -/
def pyTruthyStr : Option String → Bool
  | none => false
  | some s => s != ""

/-- The `input_data` dict both scripts build (identical in the two variants). -/
structure InputData where
  prospect_spreadsheet_id : String
  line_log_spreadsheet_id : String
  email_recipient : String
  calendar_id : String
  days_ahead : String
  top_n_prospects : String
deriving Repr, DecidableEq

/-- Builds `input_data = {... os.environ.get(K, default) ...}` from both scripts. -/
def mkInputData (env : Env) : InputData :=
  { prospect_spreadsheet_id := env.prospect_spreadsheet_id.getD ""
    line_log_spreadsheet_id := env.line_log_spreadsheet_id.getD ""
    email_recipient := env.email_recipient.getD ""
    calendar_id := env.calendar_id.getD "primary"
    days_ahead := env.days_ahead.getD "21"
    top_n_prospects := env.top_n_prospects.getD "10" }

/-- The `input_data` dict as the JSON object embedded into execution records. -/
def InputData.toJson (i : InputData) : Json :=
  .obj [("prospect_spreadsheet_id", .str i.prospect_spreadsheet_id),
        ("line_log_spreadsheet_id", .str i.line_log_spreadsheet_id),
        ("email_recipient", .str i.email_recipient),
        ("calendar_id", .str i.calendar_id),
        ("days_ahead", .str i.days_ahead),
        ("top_n_prospects", .str i.top_n_prospects)]

/-- An HTTP response as the scripts observe it: status code, raw body text
(`response.text`), and the result of JSON-parsing that text
(`response.json()`; `none` = the parse raises). -/
structure HttpResponse where
  status : Nat
  text : String
  json : Option Json
deriving Repr

/-- Result of the single `requests.post` call. -/
inductive NetResult where
  | timeout
  | transportError (msg : String)
  | ok (resp : HttpResponse)
deriving Repr

/-- The classified outcome of one invocation.  `uncaught` marks an exception
that escapes every handler and reaches the process boundary (Python then
prints a traceback and exits with code 1). -/
inductive Outcome where
  | configError (field : String)
  | started (executionId : Json)
  | completed (data : Json) (warnings : Bool)
  | failed (reason : String)
  | uncaught (detail : String)
deriving Repr

namespace Outcome

/-- Started or Completed (any warnings flag): the exit-0 class of the spec. -/
def isSuccess : Outcome → Bool
  | .started _ => true
  | .completed _ _ => true
  | _ => false

def isStarted : Outcome → Bool
  | .started _ => true
  | _ => false

def isCompleted : Outcome → Bool
  | .completed _ _ => true
  | _ => false

def isFailed : Outcome → Bool
  | .failed _ => true
  | _ => false

def isUncaught : Outcome → Bool
  | .uncaught _ => true
  | _ => false

end Outcome

/-- An execution record: the ordered fields of the dict passed to
`json.dump` on `execution_log.json`. -/
abbrev Record := List (String × Json)

/-- Everything one invocation does that the claims observe. -/
structure RunResult where
  outcome : Outcome
  exitCode : Nat
  /-- Records successfully written to `execution_log.json`, in order. -/
  writes : List Record
  /-- Number of HTTP requests issued. -/
  netCalls : Nat
deriving Repr

/-- The file is opened in mode `"w"`: after the run, its content is the last
successful write, or whatever was there before when nothing was written. -/
def fileAfter (prior : Option Record) (r : RunResult) : Option Record :=
  match r.writes.getLast? with
  | some rec => some rec
  | none => prior

/-! ### Abstract exception texts (pass-through only, exact text unused) -/

/-- Abstract `str(e)` of the `AttributeError` raised by `.get` on a non-dict. -/
def attrErrorStr : String := "'value' object has no attribute 'get'"

/-- Abstract `str(e)` of the `requests` exception raised when `response.json()` fails. -/
def jsonDecodeErrorStr : String := "Expecting value: line 1 column 1 (char 0)"

/-- Abstract `str(e)` of a `requests.exceptions.Timeout` (legacy handler only sees it
as a generic `RequestException`). -/
def legacyTimeoutStr : String := "Read timed out. (read timeout=600)"

/-- Abstract `str(e)` of the `requests.exceptions.HTTPError` from `raise_for_status()`. -/
def legacyHttpErrorStr (status : Nat) : String :=
  toString status ++ " Error for url"

/-- Abstract `str(e)` of the `OSError` when `open("execution_log.json", "w")` fails. -/
def openErrorStr : String := "No space left on device"

/-- Reads `os.environ.get(k)` as a JSON value (`None` serializes as `null`). -/
def jsonOfOptStr : Option String → Json
  | none => Json.null
  | some s => Json.str s

/-! ### The v-rube client (`run_recipe_v3.py`) -/

/-- The `save_log(data)` helper of `run_recipe_v3.py`: the dict
`{"execution_time": now, "recipe_id": os.environ.get("RECIPE_ID"), **data}`
(duplicate keys keep the first position and take `data`'s value). -/
def save_log (env : Env) (t : String) (data : Record) : Record :=
  dictMerge [("execution_time", Json.str t),
             ("recipe_id", jsonOfOptStr env.recipe_id)] data

/-- Lines 76–179 of `run_recipe_v3.py`: everything after the request is sent.
Returns the classified outcome, the exit code and the record handed to
`save_log` (each of these paths calls `save_log` exactly once, and `save_log`
never raises). -/
def classify_v3 (env : Env) (input : InputData) (net : NetResult) (t : String) :
    Outcome × Nat × Record :=
  match net with
  | .timeout =>
      let msg := "Request timeout after 10 minutes"
      (.failed msg, 1,
       save_log env t [("status", .str "failed"), ("error", .str msg)])
  | .transportError e =>
      let msg := "Request failed: " ++ e
      (.failed msg, 1,
       save_log env t [("status", .str "failed"), ("error", .str msg)])
  | .ok resp =>
      if resp.status == 200 || resp.status == 201 then
        match resp.json with
        | none =>
            -- `response.json()` raises; caught by `except RequestException`.
            let msg := "Request failed: " ++ jsonDecodeErrorStr
            (.failed msg, 1,
             save_log env t [("status", .str "failed"), ("error", .str msg)])
        | some body =>
            match body with
            | .obj fields =>
                let execId := (lookupField fields "execution_id").getD .null
                if execId.truthy then
                  (.started execId, 0,
                   save_log env t
                     [("status", .str "started"),
                      ("execution_id", execId),
                      ("recipe_id", jsonOfOptStr env.recipe_id),
                      ("input", input.toJson),
                      ("message", .str "Recipe execution started successfully"),
                      ("note", .str "Results will be updated to spreadsheet and sent via email")])
                else
                  let data := (lookupField fields "data").getD (.obj fields)
                  match data with
                  | .obj dfields =>
                      (.completed data false, 0,
                       save_log env t
                         [("status", .str "success"),
                          ("recipe_id", jsonOfOptStr env.recipe_id),
                          ("input", input.toJson),
                          ("result", data),
                          ("total_prospects", (lookupField dfields "total_prospects_analyzed").getD .null),
                          ("top_prospects", (lookupField dfields "top_prospects_count").getD .null),
                          ("events", (lookupField dfields "relevant_events_count").getD .null)])
                  | _ =>
                      -- `data.get(...)` raises AttributeError; `except Exception`.
                      let msg := "Unexpected error: " ++ attrErrorStr
                      (.failed msg, 1,
                       save_log env t [("status", .str "failed"), ("error", .str msg)])
            | _ =>
                -- `result.get("execution_id")` raises AttributeError; `except Exception`.
                let msg := "Unexpected error: " ++ attrErrorStr
                (.failed msg, 1,
                 save_log env t [("status", .str "failed"), ("error", .str msg)])
      else
        let msg := "API request failed with status " ++ toString resp.status
        (.failed msg, 1,
         save_log env t
           [("status", .str "failed"),
            ("error", .str msg),
            ("response", .str resp.text),
            ("status_code", .num resp.status)])

/-- The v-rube run once the request has been issued.  `save_log` catches its
own write failure and only warns, so `writeOk` affects the file but never the
outcome or exit code. -/
def run_v3_net (env : Env) (input : InputData) (net : NetResult)
    (writeOk : Bool) (t : String) : RunResult :=
  let c := classify_v3 env input net t
  { outcome := c.1, exitCode := c.2.1,
    writes := if writeOk then [c.2.2] else [], netCalls := 1 }

/-- The `run_recipe()` entry point of `run_recipe_v3.py`: validates `COMPOSIO_API_KEY`,
`RECIPE_ID` and the three required `input_data` fields (each missing one is
`sys.exit(1)` before the request), then issues the single POST. -/
def run_recipe_v3 (env : Env) (net : NetResult) (writeOk : Bool) (t : String) :
    RunResult :=
  if !pyTruthyStr env.composio_api_key then
    { outcome := .configError "COMPOSIO_API_KEY", exitCode := 1, writes := [], netCalls := 0 }
  else if !pyTruthyStr env.recipe_id then
    { outcome := .configError "RECIPE_ID", exitCode := 1, writes := [], netCalls := 0 }
  else if (mkInputData env).prospect_spreadsheet_id == "" then
    { outcome := .configError "PROSPECT_SPREADSHEET_ID", exitCode := 1, writes := [], netCalls := 0 }
  else if (mkInputData env).line_log_spreadsheet_id == "" then
    { outcome := .configError "LINE_LOG_SPREADSHEET_ID", exitCode := 1, writes := [], netCalls := 0 }
  else if (mkInputData env).email_recipient == "" then
    { outcome := .configError "EMAIL_RECIPIENT", exitCode := 1, writes := [], netCalls := 0 }
  else
    run_v3_net env (mkInputData env) net writeOk t

/-! ### The v-legacy client (`run_recipe.py`) -/

/-- The failed-path record of `run_recipe.py` (lines 79–85). -/
def legacyFailRecord (env : Env) (input : InputData) (t : String)
    (errStr : String) : Record :=
  [("execution_time", .str t),
   ("recipe_id", jsonOfOptStr env.recipe_id),
   ("input", input.toJson),
   ("error", .str errStr),
   ("status", .str "failed")]

/-- The success-path record of `run_recipe.py` (lines 57–63): written before
the `success`/`status` check, so its `status` field is always `"success"`. -/
def legacySuccessRecord (env : Env) (input : InputData) (t : String)
    (result : Json) : Record :=
  [("execution_time", .str t),
   ("recipe_id", jsonOfOptStr env.recipe_id),
   ("input", input.toJson),
   ("result", result),
   ("status", .str "success")]

/-- The `except RequestException` handler of `run_recipe.py`: the log write
inside it is unguarded, so a write failure there is itself an uncaught
exception (Python exits 1 either way). -/
def legacyFail (env : Env) (input : InputData) (writeOk : Bool) (t : String)
    (errStr : String) : RunResult :=
  if writeOk then
    { outcome := .failed errStr, exitCode := 1,
      writes := [legacyFailRecord env input t errStr], netCalls := 1 }
  else
    { outcome := .uncaught openErrorStr, exitCode := 1, writes := [], netCalls := 1 }

/-- Lines 47–90 of `run_recipe.py`: the request and its single
`except requests.exceptions.RequestException` handler.  `raise_for_status()`
raises only for status codes in [400, 600); on any other status the body is
parsed, the success record is written, and only then is the body inspected —
a non-dict body makes `result.get("success")` raise an uncaught
`AttributeError`. -/
def run_legacy_net (env : Env) (input : InputData) (net : NetResult)
    (writeOk : Bool) (t : String) : RunResult :=
  match net with
  | .timeout => legacyFail env input writeOk t legacyTimeoutStr
  | .transportError e => legacyFail env input writeOk t e
  | .ok resp =>
      if 400 <= resp.status && resp.status < 600 then
        legacyFail env input writeOk t (legacyHttpErrorStr resp.status)
      else
        match resp.json with
        | none =>
            -- `response.json()` raises a RequestException (requests ≥ 2.27).
            legacyFail env input writeOk t jsonDecodeErrorStr
        | some body =>
            if writeOk then
              match body with
              | .obj fields =>
                  let ok := ((lookupField fields "success").getD .null).truthy
                    || ((lookupField fields "status").getD .null).eqStrSuccess
                  { outcome := .completed body (!ok), exitCode := 0,
                    writes := [legacySuccessRecord env input t body], netCalls := 1 }
              | _ =>
                  -- record already written, then `result.get` raises uncaught.
                  { outcome := .uncaught attrErrorStr, exitCode := 1,
                    writes := [legacySuccessRecord env input t body], netCalls := 1 }
            else
              -- `open(..., "w")` raises inside the `try`; the OSError is not a
              -- RequestException, so it escapes uncaught.
              { outcome := .uncaught openErrorStr, exitCode := 1, writes := [], netCalls := 1 }

/-- The `run_recipe()` entry point of `run_recipe.py`: only `COMPOSIO_API_KEY` and `RECIPE_ID`
are validated; the three spreadsheet/email fields silently default to `""`
and the request is issued regardless. -/
def run_recipe_legacy (env : Env) (net : NetResult) (writeOk : Bool)
    (t : String) : RunResult :=
  if !pyTruthyStr env.composio_api_key || !pyTruthyStr env.recipe_id then
    { outcome := .configError "COMPOSIO_API_KEY or RECIPE_ID", exitCode := 1,
      writes := [], netCalls := 0 }
  else
    run_legacy_net env (mkInputData env) net writeOk t

/-! ### Shared helpers for the claims -/

/-- All five required configuration fields pass the v-rube validation. -/
def configOk_v3 (env : Env) : Bool :=
  pyTruthyStr env.composio_api_key && pyTruthyStr env.recipe_id
    && !((mkInputData env).prospect_spreadsheet_id == "")
    && !((mkInputData env).line_log_spreadsheet_id == "")
    && !((mkInputData env).email_recipient == "")

/-- The two fields the v-legacy validation actually checks. -/
def configOk_legacy (env : Env) : Bool :=
  pyTruthyStr env.composio_api_key && pyTruthyStr env.recipe_id

/-- A record with its `execution_time` field removed (everything the claims
compare across invocations). -/
def stripTime (rec : Record) : Record :=
  rec.filter (fun p => p.1 != "execution_time")

/-- A fully populated environment used for concrete witnesses. -/
def env0 : Env :=
  { composio_api_key := some "k", recipe_id := some "r",
    prospect_spreadsheet_id := some "p", line_log_spreadsheet_id := some "l",
    email_recipient := some "e", calendar_id := none, days_ahead := none,
    top_n_prospects := none }

/-- The inputs on which the v-legacy client cannot hit an uncaught fault
after the request: anything but a non-4xx/5xx response whose body parses to
a non-object JSON value (write success is a separate condition). -/
def legacySafe : NetResult → Bool
  | .timeout => true
  | .transportError _ => true
  | .ok resp =>
      if 400 <= resp.status && resp.status < 600 then true
      else
        match resp.json with
        | none => true
        | some b => b.isObj

theorem run_recipe_v3_of_configOk (env : Env) (net : NetResult) (w : Bool)
    (t : String) (h : configOk_v3 env = true) :
    run_recipe_v3 env net w t = run_v3_net env (mkInputData env) net w t := by
  simp only [configOk_v3, Bool.and_eq_true, Bool.not_eq_true',
    beq_eq_false_iff_ne, ne_eq] at h
  obtain ⟨⟨⟨⟨h1, h2⟩, h3⟩, h4⟩, h5⟩ := h
  simp [run_recipe_v3, h1, h2, h3, h4, h5]

theorem run_recipe_legacy_of_configOk (env : Env) (net : NetResult) (w : Bool)
    (t : String) (h : configOk_legacy env = true) :
    run_recipe_legacy env net w t = run_legacy_net env (mkInputData env) net w t := by
  simp only [configOk_legacy, Bool.and_eq_true] at h
  simp [run_recipe_legacy, h.1, h.2]


set_option maxHeartbeats 2000000 in
theorem classify_v3_props (env : Env) (input : InputData) (net : NetResult)
    (t t' : String) :
    (((classify_v3 env input net t).1.isSuccess = true ∧ (classify_v3 env input net t).2.1 = 0)
      ∨ ((classify_v3 env input net t).1.isFailed = true ∧ (classify_v3 env input net t).2.1 = 1))
    ∧ ((classify_v3 env input net t).1.isFailed = true →
        lookupField (classify_v3 env input net t).2.2 "status" = some (.str "failed"))
    ∧ ((classify_v3 env input net t).1.isSuccess = true →
        lookupField (classify_v3 env input net t).2.2 "input" = some input.toJson)
    ∧ lookupField (classify_v3 env input net t).2.2 "recipe_id"
        = some (jsonOfOptStr env.recipe_id)
    ∧ (classify_v3 env input net t).1 = (classify_v3 env input net t').1
    ∧ (classify_v3 env input net t).2.1 = (classify_v3 env input net t').2.1
    ∧ stripTime (classify_v3 env input net t).2.2
        = stripTime (classify_v3 env input net t').2.2
    ∧ (net = .timeout →
        lookupField (classify_v3 env input net t).2.2 "result" = none) := by
  cases net with
  | timeout =>
      refine ⟨Or.inr ⟨rfl, rfl⟩, fun _ => ?_, fun h => Bool.noConfusion h, ?_, rfl, rfl, ?_,
        fun _ => ?_⟩ <;>
        simp [classify_v3, save_log, dictMerge, dictInsert, lookupField, stripTime]
  | transportError e =>
      refine ⟨Or.inr ⟨rfl, rfl⟩, fun _ => ?_, fun h => Bool.noConfusion h, ?_, rfl, rfl, ?_,
        fun h => NetResult.noConfusion h⟩ <;>
        simp [classify_v3, save_log, dictMerge, dictInsert, lookupField, stripTime]
  | ok resp =>
      obtain ⟨s, txt, bj⟩ := resp
      simp only [classify_v3]
      split_ifs with hs
      · cases bj with
        | none =>
            refine ⟨Or.inr ⟨rfl, rfl⟩, fun _ => ?_, fun h => Bool.noConfusion h, ?_, rfl, rfl,
              ?_, fun h => h.elim⟩ <;>
              simp [save_log, dictMerge, dictInsert, lookupField, stripTime]
        | some body =>
            cases body with
            | obj fields =>
                dsimp only
                split_ifs with hid
                · refine ⟨Or.inl ⟨rfl, rfl⟩, fun h => Bool.noConfusion h, fun _ => ?_, ?_,
                    rfl, rfl, ?_, fun h => h.elim⟩ <;>
                    simp [save_log, dictMerge, dictInsert, lookupField, stripTime]
                · cases hd : (lookupField fields "data").getD (Json.obj fields) with
                  | obj dfields =>
                      refine ⟨Or.inl ⟨rfl, rfl⟩, fun h => Bool.noConfusion h, fun _ => ?_, ?_,
                        rfl, rfl, ?_, fun h => h.elim⟩ <;>
                        simp [save_log, dictMerge, dictInsert, lookupField, stripTime]
                  | null =>
                      refine ⟨Or.inr ⟨rfl, rfl⟩, fun _ => ?_, fun h => Bool.noConfusion h, ?_,
                        rfl, rfl, ?_, fun h => h.elim⟩ <;>
                        simp [save_log, dictMerge, dictInsert, lookupField, stripTime]
                  | bool b =>
                      refine ⟨Or.inr ⟨rfl, rfl⟩, fun _ => ?_, fun h => Bool.noConfusion h, ?_,
                        rfl, rfl, ?_, fun h => h.elim⟩ <;>
                        simp [save_log, dictMerge, dictInsert, lookupField, stripTime]
                  | num n =>
                      refine ⟨Or.inr ⟨rfl, rfl⟩, fun _ => ?_, fun h => Bool.noConfusion h, ?_,
                        rfl, rfl, ?_, fun h => h.elim⟩ <;>
                        simp [save_log, dictMerge, dictInsert, lookupField, stripTime]
                  | str sv =>
                      refine ⟨Or.inr ⟨rfl, rfl⟩, fun _ => ?_, fun h => Bool.noConfusion h, ?_,
                        rfl, rfl, ?_, fun h => h.elim⟩ <;>
                        simp [save_log, dictMerge, dictInsert, lookupField, stripTime]
                  | arr es =>
                      refine ⟨Or.inr ⟨rfl, rfl⟩, fun _ => ?_, fun h => Bool.noConfusion h, ?_,
                        rfl, rfl, ?_, fun h => h.elim⟩ <;>
                        simp [save_log, dictMerge, dictInsert, lookupField, stripTime]
            | null =>
                refine ⟨Or.inr ⟨rfl, rfl⟩, fun _ => ?_, fun h => Bool.noConfusion h, ?_, rfl,
                  rfl, ?_, fun h => h.elim⟩ <;>
                  simp [save_log, dictMerge, dictInsert, lookupField, stripTime]
            | bool b =>
                refine ⟨Or.inr ⟨rfl, rfl⟩, fun _ => ?_, fun h => Bool.noConfusion h, ?_, rfl,
                  rfl, ?_, fun h => h.elim⟩ <;>
                  simp [save_log, dictMerge, dictInsert, lookupField, stripTime]
            | num n =>
                refine ⟨Or.inr ⟨rfl, rfl⟩, fun _ => ?_, fun h => Bool.noConfusion h, ?_, rfl,
                  rfl, ?_, fun h => h.elim⟩ <;>
                  simp [save_log, dictMerge, dictInsert, lookupField, stripTime]
            | str sv =>
                refine ⟨Or.inr ⟨rfl, rfl⟩, fun _ => ?_, fun h => Bool.noConfusion h, ?_, rfl,
                  rfl, ?_, fun h => h.elim⟩ <;>
                  simp [save_log, dictMerge, dictInsert, lookupField, stripTime]
            | arr es =>
                refine ⟨Or.inr ⟨rfl, rfl⟩, fun _ => ?_, fun h => Bool.noConfusion h, ?_, rfl,
                  rfl, ?_, fun h => h.elim⟩ <;>
                  simp [save_log, dictMerge, dictInsert, lookupField, stripTime]
      · refine ⟨Or.inr ⟨rfl, rfl⟩, fun _ => ?_, fun h => Bool.noConfusion h, ?_, rfl, rfl, ?_,
          fun h => h.elim⟩ <;>
          simp [save_log, dictMerge, dictInsert, lookupField, stripTime]

/-- With the log write failing, every v-legacy run that reaches the network
ends in the same uncaught `OSError`: exit 1, nothing written. -/
theorem run_legacy_net_writeFail (env : Env) (input : InputData)
    (net : NetResult) (t : String) :
    run_legacy_net env input net false t
      = ⟨.uncaught openErrorStr, 1, [], 1⟩ := by
  cases net with
  | timeout => rfl
  | transportError e => rfl
  | ok resp =>
      obtain ⟨s, txt, bj⟩ := resp
      cases bj with
      | none =>
          simp only [run_legacy_net]
          by_cases h4xx : (decide (400 ≤ s) && decide (s < 600)) = true
          · rw [if_pos h4xx]; unfold legacyFail; rfl
          · rw [if_neg h4xx]; unfold legacyFail; rfl
      | some body =>
          simp only [run_legacy_net]
          by_cases h4xx : (decide (400 ≤ s) && decide (s < 600)) = true
          · rw [if_pos h4xx]; unfold legacyFail; rfl
          · rw [if_neg h4xx]; rfl

/-- With the log write succeeding, every v-legacy run that reaches the
network lands in one of three shapes: a logged failure, a completed run with
the success record, or an uncaught `AttributeError` raised after the success
record was already written (non-object body). -/
theorem run_legacy_net_writeOk (env : Env) (input : InputData)
    (net : NetResult) (t : String) :
    (∃ e, run_legacy_net env input net true t
        = ⟨.failed e, 1, [legacyFailRecord env input t e], 1⟩)
    ∨ (legacySafe net = true ∧ (∃ resp, net = .ok resp)
        ∧ ∃ fields wb, run_legacy_net env input net true t
          = ⟨.completed (.obj fields) wb, 0,
             [legacySuccessRecord env input t (.obj fields)], 1⟩)
    ∨ (legacySafe net = false ∧ (∃ resp, net = .ok resp)
        ∧ ∃ body, run_legacy_net env input net true t
          = ⟨.uncaught attrErrorStr, 1,
             [legacySuccessRecord env input t body], 1⟩) := by
  cases net with
  | timeout => exact Or.inl ⟨legacyTimeoutStr, rfl⟩
  | transportError e => exact Or.inl ⟨e, rfl⟩
  | ok resp =>
      obtain ⟨s, txt, bj⟩ := resp
      by_cases h4xx : (decide (400 ≤ s) && decide (s < 600)) = true
      · refine Or.inl ⟨legacyHttpErrorStr s, ?_⟩
        simp only [run_legacy_net]
        rw [if_pos h4xx]
        unfold legacyFail; rfl
      · cases bj with
        | none =>
            refine Or.inl ⟨jsonDecodeErrorStr, ?_⟩
            simp only [run_legacy_net]
            rw [if_neg h4xx]
            unfold legacyFail; rfl
        | some body =>
            cases body with
            | obj fields =>
                refine Or.inr (Or.inl ⟨?_, ⟨_, rfl⟩, fields,
                  !(((lookupField fields "success").getD .null).truthy
                    || ((lookupField fields "status").getD .null).eqStrSuccess), ?_⟩)
                · simp [legacySafe, Json.isObj]
                · simp only [run_legacy_net]
                  rw [if_neg h4xx]; rfl
            | null =>
                refine Or.inr (Or.inr ⟨?_, ⟨_, rfl⟩, .null, ?_⟩)
                · simp [legacySafe, h4xx, Json.isObj]
                · simp only [run_legacy_net]
                  rw [if_neg h4xx]; rfl
            | bool b =>
                refine Or.inr (Or.inr ⟨?_, ⟨_, rfl⟩, .bool b, ?_⟩)
                · simp [legacySafe, h4xx, Json.isObj]
                · simp only [run_legacy_net]
                  rw [if_neg h4xx]; rfl
            | num n =>
                refine Or.inr (Or.inr ⟨?_, ⟨_, rfl⟩, .num n, ?_⟩)
                · simp [legacySafe, h4xx, Json.isObj]
                · simp only [run_legacy_net]
                  rw [if_neg h4xx]; rfl
            | str sv =>
                refine Or.inr (Or.inr ⟨?_, ⟨_, rfl⟩, .str sv, ?_⟩)
                · simp [legacySafe, h4xx, Json.isObj]
                · simp only [run_legacy_net]
                  rw [if_neg h4xx]; rfl
            | arr es =>
                refine Or.inr (Or.inr ⟨?_, ⟨_, rfl⟩, .arr es, ?_⟩)
                · simp [legacySafe, h4xx, Json.isObj]
                · simp only [run_legacy_net]
                  rw [if_neg h4xx]; rfl

theorem classify_v3_not_uncaught (env : Env) (input : InputData)
    (net : NetResult) (t : String) :
    (classify_v3 env input net t).1.isUncaught = false := by
  rcases (classify_v3_props env input net t t).1 with ⟨h, _⟩ | ⟨h, _⟩ <;>
    (cases ho : (classify_v3 env input net t).1 <;>
      simp_all [Outcome.isSuccess, Outcome.isFailed, Outcome.isUncaught])

theorem run_legacy_net_time_inv (env : Env) (input : InputData)
    (net : NetResult) (t t' : String) :
    (run_legacy_net env input net true t).outcome
        = (run_legacy_net env input net true t').outcome
    ∧ (run_legacy_net env input net true t).exitCode
        = (run_legacy_net env input net true t').exitCode
    ∧ (run_legacy_net env input net true t).writes.map stripTime
        = (run_legacy_net env input net true t').writes.map stripTime := by
  cases net with
  | timeout => exact ⟨rfl, rfl, rfl⟩
  | transportError e => exact ⟨rfl, rfl, rfl⟩
  | ok resp =>
      obtain ⟨s, txt, bj⟩ := resp
      simp only [run_legacy_net]
      by_cases h4xx : (decide (400 ≤ s) && decide (s < 600)) = true
      · simp only [if_pos h4xx]; exact ⟨rfl, rfl, rfl⟩
      · simp only [if_neg h4xx]
        cases bj with
        | none => exact ⟨rfl, rfl, rfl⟩
        | some body => cases body <;> exact ⟨rfl, rfl, rfl⟩

/-- C2: as stated, the claim fails on v-legacy — with the api key and recipe
id set but `PROSPECT_SPREADSHEET_ID` unset, the legacy client still issues
the HTTP request (and here even exits 0). -/
theorem c2_counterexample :
    (run_recipe_legacy { env0 with prospect_spreadsheet_id := none }
      (.ok ⟨200, "", some (.obj [("status", .str "success")])⟩) true "T").netCalls = 1
    ∧ (run_recipe_legacy { env0 with prospect_spreadsheet_id := none }
      (.ok ⟨200, "", some (.obj [("status", .str "success")])⟩) true "T").exitCode = 0 := by
  decide

/-- C2 (amended): the v-rube client exits 1 with zero HTTP requests when any
of the five required fields fails validation; the v-legacy client does so
only for a missing api key or recipe id, and issues the request whenever
those two are set, regardless of the other three fields. -/
theorem c2_amended (env : Env) (net : NetResult) (w : Bool) (t : String) :
    (configOk_v3 env = false →
      (run_recipe_v3 env net w t).exitCode = 1
      ∧ (run_recipe_v3 env net w t).netCalls = 0
      ∧ (run_recipe_v3 env net w t).outcome.isSuccess = false)
    ∧ (configOk_legacy env = false →
      (run_recipe_legacy env net w t).exitCode = 1
      ∧ (run_recipe_legacy env net w t).netCalls = 0)
    ∧ (configOk_legacy env = true →
      (run_recipe_legacy env net w t).netCalls = 1) := by
  refine ⟨?_, ?_, ?_⟩
  · intro h
    unfold run_recipe_v3
    split_ifs with h1 h2 h3 h4 h5
    · exact ⟨rfl, rfl, rfl⟩
    · exact ⟨rfl, rfl, rfl⟩
    · exact ⟨rfl, rfl, rfl⟩
    · exact ⟨rfl, rfl, rfl⟩
    · exact ⟨rfl, rfl, rfl⟩
    · exfalso
      simp only [configOk_v3, Bool.and_eq_false_iff, Bool.not_eq_true] at h
      simp only [Bool.not_eq_true'] at h1 h2
      simp only [Bool.not_eq_true] at h3 h4 h5
      rcases h with ((((h | h) | h) | h) | h) <;> simp_all
  · intro h
    unfold run_recipe_legacy
    split_ifs with h1
    · exact ⟨rfl, rfl⟩
    · exfalso
      simp only [configOk_legacy, Bool.and_eq_false_iff] at h
      simp only [Bool.or_eq_true, Bool.not_eq_true'] at h1
      rcases h with h | h <;> simp_all
  · intro h
    rw [run_recipe_legacy_of_configOk env net w t h]
    cases net with
    | timeout => unfold run_legacy_net legacyFail; cases w <;> rfl
    | transportError e => unfold run_legacy_net legacyFail; cases w <;> rfl
    | ok resp =>
        obtain ⟨s, txt, bj⟩ := resp
        cases w with
        | false => rw [run_legacy_net_writeFail]
        | true =>
            rcases run_legacy_net_writeOk env (mkInputData env) (.ok ⟨s, txt, bj⟩) t with
              ⟨e, heq⟩ | ⟨_, _, fields, wb, heq⟩ | ⟨_, _, body, heq⟩ <;> rw [heq]

/-- C2 witness for the amended theorem: with `EMAIL_RECIPIENT` unset, the
v-rube client exits 1 without any HTTP request; with full configuration the
v-legacy client issues exactly one request. -/
theorem c2_amended_witness :
    (run_recipe_v3 { env0 with email_recipient := none } .timeout true "T").exitCode = 1
    ∧ (run_recipe_v3 { env0 with email_recipient := none } .timeout true "T").netCalls = 0
    ∧ (run_recipe_legacy env0 .timeout true "T").netCalls = 1 := by
  refine ⟨(c2_amended _ .timeout true "T").1 (by decide) |>.1,
          (c2_amended _ .timeout true "T").1 (by decide) |>.2.1,
          (c2_amended env0 .timeout true "T").2.2 (by decide)⟩

/-- C1: the claim fails on its synchronous half — a 200 response whose body
is an object with a non-object `data` value (here `{"data": []}`) is not
`Completed`; the `data.get(...)` AttributeError lands in the catch-all and
the run exits 1. -/
theorem c1_counterexample :
    (run_recipe_v3 env0 (.ok ⟨200, "", some (.obj [("data", .arr [])])⟩)
      true "T").outcome.isCompleted = false
    ∧ (run_recipe_v3 env0 (.ok ⟨200, "", some (.obj [("data", .arr [])])⟩)
      true "T").exitCode = 1 := by
  decide

/-- C1 (amended): on a 200/201 v-rube response with an object body, a truthy
`execution_id` yields `Started` with that id and exit 0; otherwise the run is
`Completed` with `data` (the `data` key, else the whole body) and exit 0
exactly when that `data` value is itself a JSON object — a non-object `data`
value is caught as an unexpected error and exits 1. -/
theorem c1_amended (env : Env) (fields : List (String × Json)) (s : Nat)
    (txt t : String) (w : Bool)
    (hc : configOk_v3 env = true) (hs : s = 200 ∨ s = 201) :
    (((lookupField fields "execution_id").getD .null).truthy = true →
      (run_recipe_v3 env (.ok ⟨s, txt, some (.obj fields)⟩) w t).outcome
          = .started ((lookupField fields "execution_id").getD .null)
        ∧ (run_recipe_v3 env (.ok ⟨s, txt, some (.obj fields)⟩) w t).exitCode = 0)
    ∧ (((lookupField fields "execution_id").getD .null).truthy = false →
        ((lookupField fields "data").getD (.obj fields)).isObj = true →
        (run_recipe_v3 env (.ok ⟨s, txt, some (.obj fields)⟩) w t).outcome
            = .completed ((lookupField fields "data").getD (.obj fields)) false
          ∧ (run_recipe_v3 env (.ok ⟨s, txt, some (.obj fields)⟩) w t).exitCode = 0)
    ∧ (((lookupField fields "execution_id").getD .null).truthy = false →
        ((lookupField fields "data").getD (.obj fields)).isObj = false →
        (run_recipe_v3 env (.ok ⟨s, txt, some (.obj fields)⟩) w t).outcome
            = .failed ("Unexpected error: " ++ attrErrorStr)
          ∧ (run_recipe_v3 env (.ok ⟨s, txt, some (.obj fields)⟩) w t).exitCode = 1) := by
  rw [run_recipe_v3_of_configOk env _ w t hc]
  have hcnd : ((s == 200 || s == 201) = true) := by
    rcases hs with rfl | rfl <;> decide
  refine ⟨fun hid => ?_, fun hid hdata => ?_, fun hid hdata => ?_⟩
  · simp only [run_v3_net, classify_v3]
    rw [if_pos hcnd, if_pos hid]
    exact ⟨rfl, rfl⟩
  · simp only [run_v3_net, classify_v3]
    rw [if_pos hcnd, if_neg (by simp [hid])]
    cases hd : (lookupField fields "data").getD (Json.obj fields) with
    | obj dfields => exact ⟨rfl, rfl⟩
    | null => rw [hd] at hdata; exact Bool.noConfusion hdata
    | bool b => rw [hd] at hdata; exact Bool.noConfusion hdata
    | num n => rw [hd] at hdata; exact Bool.noConfusion hdata
    | str sv => rw [hd] at hdata; exact Bool.noConfusion hdata
    | arr es => rw [hd] at hdata; exact Bool.noConfusion hdata
  · simp only [run_v3_net, classify_v3]
    rw [if_pos hcnd, if_neg (by simp [hid])]
    cases hd : (lookupField fields "data").getD (Json.obj fields) with
    | obj dfields => rw [hd] at hdata; exact Bool.noConfusion hdata
    | null => exact ⟨rfl, rfl⟩
    | bool b => exact ⟨rfl, rfl⟩
    | num n => exact ⟨rfl, rfl⟩
    | str sv => exact ⟨rfl, rfl⟩
    | arr es => exact ⟨rfl, rfl⟩

/-- C1 witness: `{"execution_id": "abc123"}` starts, `{"data": {"a": 1}}`
completes with that data. -/
theorem c1_amended_witness :
    (run_recipe_v3 env0 (.ok ⟨200, "x", some (.obj [("execution_id", .str "abc123")])⟩)
        true "T").outcome = .started (.str "abc123")
    ∧ (run_recipe_v3 env0 (.ok ⟨200, "x", some (.obj [("data", .obj [("a", .num 1)])])⟩)
        true "T").outcome = .completed (.obj [("a", .num 1)]) false :=
  ⟨((c1_amended env0 [("execution_id", .str "abc123")] 200 "x" "T" true (by decide)
      (Or.inl rfl)).1 (by decide)).1,
   ((c1_amended env0 [("data", .obj [("a", .num 1)])] 200 "x" "T" true (by decide)
      (Or.inl rfl)).2.1 (by decide) (by decide)).1⟩

/-- C3: the claim fails on v-legacy — a 203 response (not in {200, 201}) with
a success body is classified as completed and exits 0, not Failed/1, because
`raise_for_status()` only raises for 4xx/5xx. -/
theorem c3_counterexample :
    (run_recipe_legacy env0
      (.ok ⟨203, "b", some (.obj [("status", .str "success")])⟩) true "T").exitCode = 0
    ∧ (run_recipe_legacy env0
      (.ok ⟨203, "b", some (.obj [("status", .str "success")])⟩)
        true "T").outcome.isFailed = false := by
  decide

/-- C3 (amended): the v-rube client classifies every non-{200,201} response
as Failed, exits 1, and writes a "failed" record carrying the numeric status
(`status_code`) and the raw body text (`response`).  The v-legacy client
treats only statuses in [400, 600) as failures; its failed record carries the
stringified exception in an `error` field (fields: execution_time, recipe_id,
input, error, status) — not the numeric status or raw body as fields. -/
theorem c3_amended (env : Env) (s : Nat) (txt t : String) (bj : Option Json)
    (hc : configOk_v3 env = true) (hcl : configOk_legacy env = true)
    (hs : ¬(s = 200 ∨ s = 201)) :
    (run_recipe_v3 env (.ok ⟨s, txt, bj⟩) true t).outcome
        = .failed ("API request failed with status " ++ toString s)
    ∧ (run_recipe_v3 env (.ok ⟨s, txt, bj⟩) true t).exitCode = 1
    ∧ (run_recipe_v3 env (.ok ⟨s, txt, bj⟩) true t).writes
        = [[("execution_time", .str t), ("recipe_id", jsonOfOptStr env.recipe_id),
            ("status", .str "failed"),
            ("error", .str ("API request failed with status " ++ toString s)),
            ("response", .str txt), ("status_code", .num s)]]
    ∧ (400 ≤ s → s < 600 →
        (run_recipe_legacy env (.ok ⟨s, txt, bj⟩) true t).outcome
            = .failed (legacyHttpErrorStr s)
        ∧ (run_recipe_legacy env (.ok ⟨s, txt, bj⟩) true t).exitCode = 1
        ∧ (run_recipe_legacy env (.ok ⟨s, txt, bj⟩) true t).writes
            = [legacyFailRecord env (mkInputData env) t (legacyHttpErrorStr s)]) := by
  have hcnd : ¬((s == 200 || s == 201) = true) := by
    simp only [Bool.or_eq_true, beq_iff_eq]
    exact hs
  rw [run_recipe_v3_of_configOk env _ true t hc,
      run_recipe_legacy_of_configOk env _ true t hcl]
  refine ⟨?_, ?_, ?_, fun h4 h6 => ?_⟩
  · simp only [run_v3_net, classify_v3]
    rw [if_neg hcnd]
  · simp only [run_v3_net, classify_v3]
    rw [if_neg hcnd]
  · simp only [run_v3_net, classify_v3]
    rw [if_neg hcnd]
    simp [save_log, dictMerge, dictInsert]
  · have h4xx : (decide (400 ≤ s) && decide (s < 600)) = true := by
      simp [h4, h6]
    simp only [run_legacy_net]
    rw [if_pos h4xx]
    exact ⟨rfl, rfl, rfl⟩

/-- C3 witness: a 500 response with body "boom" makes both clients exit 1;
the v-rube run carries the numeric status in its record. -/
theorem c3_amended_witness :
    (run_recipe_v3 env0 (.ok ⟨500, "boom", none⟩) true "T").exitCode = 1
    ∧ (run_recipe_legacy env0 (.ok ⟨500, "boom", none⟩) true "T").exitCode = 1 :=
  ⟨(c3_amended env0 500 "boom" "T" none (by decide) (by decide) (by decide)).2.1,
   ((c3_amended env0 500 "boom" "T" none (by decide) (by decide) (by decide)).2.2.2
      (by decide) (by decide)).2.1⟩

/-- C4: the claim's totality fails on v-legacy — a 200 response whose body
parses to a JSON array produces no Started/Completed/Failed outcome at all:
the run dies on an uncaught AttributeError (after writing a "success"
record), though the Python process does exit 1. -/
theorem c4_counterexample :
    (run_recipe_legacy env0 (.ok ⟨200, "", some (.arr [])⟩)
      true "T").outcome.isSuccess = false
    ∧ (run_recipe_legacy env0 (.ok ⟨200, "", some (.arr [])⟩)
      true "T").outcome.isFailed = false
    ∧ (run_recipe_legacy env0 (.ok ⟨200, "", some (.arr [])⟩)
      true "T").netCalls = 1 := by
  decide

/-- C4 (amended): for the v-rube client the mapping is total and exclusive —
every invocation reaching the network ends Started/Completed with exit 0 or
Failed with exit 1, for any write outcome.  For the v-legacy client the same
holds when the log write succeeds and the response is not a non-4xx/5xx
response with a non-object JSON body; outside that case the run ends in an
uncaught fault (exit 1 via the interpreter, no classified outcome). -/
theorem c4_amended (env : Env) (net : NetResult) (w : Bool) (t : String)
    (hc : configOk_v3 env = true) (hcl : configOk_legacy env = true) :
    (((run_recipe_v3 env net w t).outcome.isSuccess = true
        ∧ (run_recipe_v3 env net w t).exitCode = 0)
      ∨ ((run_recipe_v3 env net w t).outcome.isFailed = true
        ∧ (run_recipe_v3 env net w t).exitCode = 1))
    ∧ (legacySafe net = true →
        ((run_recipe_legacy env net true t).outcome.isSuccess = true
            ∧ (run_recipe_legacy env net true t).exitCode = 0)
          ∨ ((run_recipe_legacy env net true t).outcome.isFailed = true
            ∧ (run_recipe_legacy env net true t).exitCode = 1)) := by
  constructor
  · rw [run_recipe_v3_of_configOk env net w t hc]
    exact (classify_v3_props env (mkInputData env) net t t).1
  · intro hsafe
    rw [run_recipe_legacy_of_configOk env net true t hcl]
    rcases run_legacy_net_writeOk env (mkInputData env) net t with
      ⟨e, heq⟩ | ⟨_, _, fields, wb, heq⟩ | ⟨hfalse, _, _⟩
    · rw [heq]; exact Or.inr ⟨rfl, rfl⟩
    · rw [heq]; exact Or.inl ⟨rfl, rfl⟩
    · rw [hsafe] at hfalse; exact Bool.noConfusion hfalse

/-- C4 witness: on a timeout both clients end Failed with exit 1. -/
theorem c4_amended_witness :
    (((run_recipe_v3 env0 .timeout true "T").outcome.isSuccess = true
        ∧ (run_recipe_v3 env0 .timeout true "T").exitCode = 0)
      ∨ ((run_recipe_v3 env0 .timeout true "T").outcome.isFailed = true
        ∧ (run_recipe_v3 env0 .timeout true "T").exitCode = 1))
    ∧ (((run_recipe_legacy env0 .timeout true "T").outcome.isSuccess = true
        ∧ (run_recipe_legacy env0 .timeout true "T").exitCode = 0)
      ∨ ((run_recipe_legacy env0 .timeout true "T").outcome.isFailed = true
        ∧ (run_recipe_legacy env0 .timeout true "T").exitCode = 1)) :=
  ⟨(c4_amended env0 .timeout true "T" (by decide) (by decide)).1,
   (c4_amended env0 .timeout true "T" (by decide) (by decide)).2 (by decide)⟩

/-- C5: the claim fails on v-legacy — a 200 response whose body parses to a
JSON string makes `result.get("success")` raise an AttributeError that no
handler catches: an uncaught fault reaches the process boundary. -/
theorem c5_counterexample :
    (run_recipe_legacy env0 (.ok ⟨200, "", some (.str "hi")⟩)
      true "T").outcome.isUncaught = true := by
  decide

/-- C5 (amended): after validation, the v-rube client never lets a fault
reach the process boundary: every failure is a Failed outcome with exit 1 and
a "failed" record, and the timeout record carries no `result` field.  The
v-legacy client does the same only for timeouts, transport errors, 4xx/5xx
statuses and parse failures, and only when the log write succeeds; a
non-object 2xx body or a failing log write escapes as an uncaught fault. -/
theorem c5_amended (env : Env) (net : NetResult) (w : Bool) (t : String)
    (hc : configOk_v3 env = true) (hcl : configOk_legacy env = true) :
    (run_recipe_v3 env net w t).outcome.isUncaught = false
    ∧ ((run_recipe_v3 env net true t).outcome.isFailed = true →
        (run_recipe_v3 env net true t).exitCode = 1
        ∧ ∀ rec ∈ (run_recipe_v3 env net true t).writes,
            lookupField rec "status" = some (.str "failed"))
    ∧ (∀ rec ∈ (run_recipe_v3 env .timeout true t).writes,
        lookupField rec "result" = none)
    ∧ (legacySafe net = true →
        (run_recipe_legacy env net true t).outcome.isUncaught = false)
    ∧ ((run_recipe_legacy env net true t).outcome.isFailed = true →
        (run_recipe_legacy env net true t).exitCode = 1
        ∧ ∀ rec ∈ (run_recipe_legacy env net true t).writes,
            lookupField rec "status" = some (.str "failed"))
    ∧ (∀ rec ∈ (run_recipe_legacy env .timeout true t).writes,
        lookupField rec "result" = none) := by
  refine ⟨?_, ?_, ?_, ?_, ?_, ?_⟩
  · rw [run_recipe_v3_of_configOk env net w t hc]
    exact classify_v3_not_uncaught env (mkInputData env) net t
  · rw [run_recipe_v3_of_configOk env net true t hc]
    intro hf
    replace hf : (classify_v3 env (mkInputData env) net t).1.isFailed = true := hf
    refine ⟨?_, ?_⟩
    · rcases (classify_v3_props env (mkInputData env) net t t).1 with ⟨hsucc, _⟩ | ⟨_, he⟩
      · exfalso
        cases ho : (classify_v3 env (mkInputData env) net t).1 <;>
          simp_all [Outcome.isSuccess, Outcome.isFailed]
      · exact he
    · intro rec hrec
      have : rec = (classify_v3 env (mkInputData env) net t).2.2 :=
        List.mem_singleton.mp hrec
      subst this
      exact (classify_v3_props env (mkInputData env) net t t).2.1 hf
  · rw [run_recipe_v3_of_configOk env .timeout true t hc]
    intro rec hrec
    have : rec = (classify_v3 env (mkInputData env) .timeout t).2.2 :=
      List.mem_singleton.mp hrec
    subst this
    exact (classify_v3_props env (mkInputData env) .timeout t t).2.2.2.2.2.2.2 rfl
  · intro hsafe
    rw [run_recipe_legacy_of_configOk env net true t hcl]
    rcases run_legacy_net_writeOk env (mkInputData env) net t with
      ⟨e, heq⟩ | ⟨_, _, fields, wb, heq⟩ | ⟨hfalse, _, _⟩
    · rw [heq]; rfl
    · rw [heq]; rfl
    · rw [hsafe] at hfalse; exact Bool.noConfusion hfalse
  · rw [run_recipe_legacy_of_configOk env net true t hcl]
    intro hf
    rcases run_legacy_net_writeOk env (mkInputData env) net t with
      ⟨e, heq⟩ | ⟨_, _, fields, wb, heq⟩ | ⟨_, _, body, heq⟩
    · rw [heq]
      refine ⟨rfl, ?_⟩
      intro rec hrec
      have : rec = legacyFailRecord env (mkInputData env) t e :=
        List.mem_singleton.mp hrec
      subst this
      rfl
    · rw [heq] at hf; exact Bool.noConfusion hf
    · rw [heq] at hf; exact Bool.noConfusion hf
  · rw [run_recipe_legacy_of_configOk env .timeout true t hcl]
    intro rec hrec
    have : rec = legacyFailRecord env (mkInputData env) t legacyTimeoutStr :=
      List.mem_singleton.mp hrec
    subst this
    rfl

/-- C5 witness: a timeout on either client is a caught, logged failure with
exit 1 and no uncaught fault. -/
theorem c5_amended_witness :
    (run_recipe_v3 env0 .timeout true "T").outcome.isUncaught = false
    ∧ (run_recipe_legacy env0 .timeout true "T").outcome.isUncaught = false :=
  ⟨(c5_amended env0 .timeout true "T" (by decide) (by decide)).1,
   (c5_amended env0 .timeout true "T" (by decide) (by decide)).2.2.2.1 (by decide)⟩

/-- C6: the claim fails on v-rube Failed records — the record written for a
500 response has no `input` field at all (the claim requires the input echo
on every outcome, including Failed). -/
theorem c6_counterexample :
    (run_recipe_v3 env0 (.ok ⟨500, "boom", none⟩) true "T").writes.length = 1
    ∧ (run_recipe_v3 env0 (.ok ⟨500, "boom", none⟩) true "T").writes.all
        (fun rec => (lookupField rec "input").isNone) = true := by
  decide

/-- C6 (amended): when the write succeeds, every invocation reaching the
network writes exactly one record, replacing any prior file content, and the
record's `recipe_id` always echoes the environment's recipe id.  The `input`
field echoes the dispatched parameters on Started/Completed records of the
v-rube client and on every v-legacy record (including failures), but v-rube
Failed records carry no `input` field. -/
theorem c6_amended (env : Env) (net : NetResult) (t : String)
    (prior : Option Record)
    (hc : configOk_v3 env = true) (hcl : configOk_legacy env = true) :
    (run_recipe_v3 env net true t).writes.length = 1
    ∧ fileAfter prior (run_recipe_v3 env net true t)
        = (run_recipe_v3 env net true t).writes.head?
    ∧ (∀ rec ∈ (run_recipe_v3 env net true t).writes,
        lookupField rec "recipe_id" = some (jsonOfOptStr env.recipe_id))
    ∧ ((run_recipe_v3 env net true t).outcome.isSuccess = true →
        ∀ rec ∈ (run_recipe_v3 env net true t).writes,
          lookupField rec "input" = some (mkInputData env).toJson)
    ∧ (run_recipe_legacy env net true t).writes.length = 1
    ∧ fileAfter prior (run_recipe_legacy env net true t)
        = (run_recipe_legacy env net true t).writes.head?
    ∧ (∀ rec ∈ (run_recipe_legacy env net true t).writes,
        lookupField rec "recipe_id" = some (jsonOfOptStr env.recipe_id)
        ∧ lookupField rec "input" = some (mkInputData env).toJson) := by
  rw [run_recipe_v3_of_configOk env net true t hc,
      run_recipe_legacy_of_configOk env net true t hcl]
  refine ⟨rfl, rfl, ?_, ?_, ?_, ?_, ?_⟩
  · intro rec hrec
    have : rec = (classify_v3 env (mkInputData env) net t).2.2 :=
      List.mem_singleton.mp hrec
    subst this
    exact (classify_v3_props env (mkInputData env) net t t).2.2.2.1
  · intro hsucc rec hrec
    have : rec = (classify_v3 env (mkInputData env) net t).2.2 :=
      List.mem_singleton.mp hrec
    subst this
    exact (classify_v3_props env (mkInputData env) net t t).2.2.1 hsucc
  · rcases run_legacy_net_writeOk env (mkInputData env) net t with
      ⟨e, heq⟩ | ⟨_, _, fields, wb, heq⟩ | ⟨_, _, body, heq⟩ <;> rw [heq] <;> rfl
  · rcases run_legacy_net_writeOk env (mkInputData env) net t with
      ⟨e, heq⟩ | ⟨_, _, fields, wb, heq⟩ | ⟨_, _, body, heq⟩ <;> rw [heq] <;> rfl
  · rcases run_legacy_net_writeOk env (mkInputData env) net t with
      ⟨e, heq⟩ | ⟨_, _, fields, wb, heq⟩ | ⟨_, _, body, heq⟩ <;> rw [heq] <;>
      (intro rec hrec
       first
        | (have h1 : rec = legacyFailRecord env (mkInputData env) t e :=
              List.mem_singleton.mp hrec
           subst h1; exact ⟨rfl, rfl⟩)
        | (have h2 : rec = legacySuccessRecord env (mkInputData env) t (.obj fields) :=
              List.mem_singleton.mp hrec
           subst h2; exact ⟨rfl, rfl⟩)
        | (have h3 : rec = legacySuccessRecord env (mkInputData env) t body :=
              List.mem_singleton.mp hrec
           subst h3; exact ⟨rfl, rfl⟩))

/-- C6 witness: with full configuration and a timeout, exactly one record is
written and it overwrites the prior file content. -/
theorem c6_amended_witness :
    (run_recipe_v3 env0 .timeout true "T").writes.length = 1
    ∧ fileAfter (some [("old", Json.null)]) (run_recipe_v3 env0 .timeout true "T")
        = (run_recipe_v3 env0 .timeout true "T").writes.head? :=
  ⟨(c6_amended env0 .timeout "T" (some [("old", Json.null)]) (by decide) (by decide)).1,
   (c6_amended env0 .timeout "T" (some [("old", Json.null)]) (by decide) (by decide)).2.1⟩

/-- C7: the claim fails on v-legacy — with a successful 200 response, a log
write failure flips the exit code from 0 to 1 (the OSError from `open` is
uncaught inside the `try`). -/
theorem c7_counterexample :
    (run_recipe_legacy env0 (.ok ⟨200, "", some (.obj [("success", .bool true)])⟩)
      true "T").exitCode = 0
    ∧ (run_recipe_legacy env0 (.ok ⟨200, "", some (.obj [("success", .bool true)])⟩)
      false "T").exitCode = 1 := by
  decide

/-- C7 (amended): in the v-rube client a log-write failure never changes the
outcome or the exit code (`save_log` catches it and warns).  In the v-legacy
client the write is unguarded: whenever the write fails, the run reaching the
network ends with exit code 1, nothing written, and no success outcome —
even when the response itself succeeded. -/
theorem c7_amended (env : Env) (net : NetResult) (t : String) (w w' : Bool) :
    (run_recipe_v3 env net w t).outcome = (run_recipe_v3 env net w' t).outcome
    ∧ (run_recipe_v3 env net w t).exitCode = (run_recipe_v3 env net w' t).exitCode
    ∧ (run_recipe_legacy env net false t).exitCode = 1
    ∧ (run_recipe_legacy env net false t).writes = []
    ∧ (run_recipe_legacy env net false t).outcome.isSuccess = false := by
  refine ⟨?_, ?_, ?_, ?_, ?_⟩
  · unfold run_recipe_v3
    split_ifs <;> rfl
  · unfold run_recipe_v3
    split_ifs <;> rfl
  · unfold run_recipe_legacy
    split_ifs with h1
    · rfl
    · rw [run_legacy_net_writeFail]
  · unfold run_recipe_legacy
    split_ifs with h1
    · rfl
    · rw [run_legacy_net_writeFail]
  · unfold run_recipe_legacy
    split_ifs with h1
    · rfl
    · rw [run_legacy_net_writeFail]; rfl

/-- C8: the claim's "regardless of body content" fails — a 200 v-legacy
response whose body parses to the JSON number 7 is not Completed and exits 1
(uncaught AttributeError on `result.get`). -/
theorem c8_counterexample :
    (run_recipe_legacy env0 (.ok ⟨200, "", some (.num 7)⟩)
      true "T").outcome.isCompleted = false
    ∧ (run_recipe_legacy env0 (.ok ⟨200, "", some (.num 7)⟩)
      true "T").exitCode = 1 := by
  decide

/-- C8 (amended): for every 2xx v-legacy response whose body parses to a JSON
object (and with the log write succeeding), the outcome is Completed with
exit 0 — plain success when `success` is truthy or `status` equals
`"success"`, completed-with-warnings otherwise — and the v-legacy client
never produces a Started outcome on any input.  2xx responses with
non-object or unparsable bodies do not complete (they exit 1). -/
theorem c8_amended (env : Env) (s : Nat) (txt t : String)
    (fields : List (String × Json)) (net : NetResult) (w : Bool)
    (hcl : configOk_legacy env = true) (h2xx : 200 ≤ s ∧ s < 300) :
    (run_recipe_legacy env (.ok ⟨s, txt, some (.obj fields)⟩) true t).outcome
      = .completed (.obj fields)
          (!(((lookupField fields "success").getD .null).truthy
            || ((lookupField fields "status").getD .null).eqStrSuccess))
    ∧ (run_recipe_legacy env (.ok ⟨s, txt, some (.obj fields)⟩) true t).exitCode = 0
    ∧ (run_recipe_legacy env net w t).outcome.isStarted = false := by
  have h400 : ¬(400 ≤ s) := by omega
  have hcnd : ¬((decide (400 ≤ s) && decide (s < 600)) = true) := by
    simp [h400]
  refine ⟨?_, ?_, ?_⟩
  · rw [run_recipe_legacy_of_configOk env _ true t hcl]
    simp only [run_legacy_net]
    rw [if_neg hcnd]
    rfl
  · rw [run_recipe_legacy_of_configOk env _ true t hcl]
    simp only [run_legacy_net]
    rw [if_neg hcnd]
    rfl
  · unfold run_recipe_legacy
    split_ifs with h1
    · rfl
    · cases w with
      | false => rw [run_legacy_net_writeFail]; rfl
      | true =>
          rcases run_legacy_net_writeOk env (mkInputData env) net t with
            ⟨e, heq⟩ | ⟨_, _, flds, wb, heq⟩ | ⟨_, _, body, heq⟩ <;>
            (rw [heq]; rfl)

/-- C8 witness: a 200 response with body `{"status": "success"}` completes
without warnings; body `{}` completes with warnings; both exit 0. -/
theorem c8_amended_witness :
    (run_recipe_legacy env0 (.ok ⟨200, "", some (.obj [("status", .str "success")])⟩)
        true "T").outcome = .completed (.obj [("status", .str "success")]) false
    ∧ (run_recipe_legacy env0 (.ok ⟨200, "", some (.obj [])⟩)
        true "T").outcome = .completed (.obj []) true
    ∧ (run_recipe_legacy env0 (.ok ⟨200, "", some (.obj [])⟩)
        true "T").exitCode = 0 :=
  ⟨(c8_amended env0 200 "" "T" [("status", .str "success")] .timeout true (by decide)
      ⟨by decide, by decide⟩).1,
   (c8_amended env0 200 "" "T" [] .timeout true (by decide) ⟨by decide, by decide⟩).1,
   (c8_amended env0 200 "" "T" [] .timeout true (by decide) ⟨by decide, by decide⟩).2.1⟩

/-- C9 (confirmed): two invocations of either client with the same resolved
configuration, the same server response and the same write outcome produce
the same outcome, the same exit code, and records that agree on every field
except `execution_time`. -/
theorem c9_confirmed (env : Env) (net : NetResult) (w : Bool) (t t' : String) :
    (run_recipe_v3 env net w t).outcome = (run_recipe_v3 env net w t').outcome
    ∧ (run_recipe_v3 env net w t).exitCode = (run_recipe_v3 env net w t').exitCode
    ∧ (run_recipe_v3 env net w t).writes.map stripTime
        = (run_recipe_v3 env net w t').writes.map stripTime
    ∧ (run_recipe_legacy env net w t).outcome = (run_recipe_legacy env net w t').outcome
    ∧ (run_recipe_legacy env net w t).exitCode = (run_recipe_legacy env net w t').exitCode
    ∧ (run_recipe_legacy env net w t).writes.map stripTime
        = (run_recipe_legacy env net w t').writes.map stripTime := by
  obtain ⟨ho, he, hs⟩ :
      (classify_v3 env (mkInputData env) net t).1 = (classify_v3 env (mkInputData env) net t').1
      ∧ (classify_v3 env (mkInputData env) net t).2.1
          = (classify_v3 env (mkInputData env) net t').2.1
      ∧ stripTime (classify_v3 env (mkInputData env) net t).2.2
          = stripTime (classify_v3 env (mkInputData env) net t').2.2 := by
    have h := classify_v3_props env (mkInputData env) net t t'
    exact ⟨h.2.2.2.2.1, h.2.2.2.2.2.1, h.2.2.2.2.2.2.1⟩
  refine ⟨?_, ?_, ?_, ?_, ?_, ?_⟩
  · unfold run_recipe_v3
    split_ifs <;> first | rfl | exact ho
  · unfold run_recipe_v3
    split_ifs <;> first | rfl | exact he
  · unfold run_recipe_v3
    split_ifs <;> try rfl
    cases w with
    | false => rfl
    | true => simp only [run_v3_net, if_true, List.map_cons, List.map_nil]; rw [hs]
  · unfold run_recipe_legacy
    split_ifs <;> try rfl
    cases w with
    | false => rw [run_legacy_net_writeFail, run_legacy_net_writeFail]
    | true => exact (run_legacy_net_time_inv env (mkInputData env) net t t').1
  · unfold run_recipe_legacy
    split_ifs <;> try rfl
    cases w with
    | false => rw [run_legacy_net_writeFail, run_legacy_net_writeFail]
    | true => exact (run_legacy_net_time_inv env (mkInputData env) net t t').2.1
  · unfold run_recipe_legacy
    split_ifs <;> try rfl
    cases w with
    | false => rw [run_legacy_net_writeFail, run_legacy_net_writeFail]
    | true => exact (run_legacy_net_time_inv env (mkInputData env) net t t').2.2

/-- C10 (confirmed): a 200/201 v-rube response whose body parses to a
non-object JSON value does not crash: the `.get` AttributeError is caught by
the catch-all handler, the run ends Failed with an "Unexpected error" reason
and exit 1, a "failed" record is written, and a Completed outcome only ever
arises from a response whose parsed body is a JSON object. -/
theorem c10_confirmed (env : Env) (s : Nat) (txt t : String) (j : Json)
    (w : Bool) (net : NetResult) (d : Json) (b : Bool)
    (hc : configOk_v3 env = true) (hs : s = 200 ∨ s = 201)
    (hj : j.isObj = false) :
    (run_recipe_v3 env (.ok ⟨s, txt, some j⟩) w t).outcome
        = .failed ("Unexpected error: " ++ attrErrorStr)
    ∧ (run_recipe_v3 env (.ok ⟨s, txt, some j⟩) w t).outcome.isUncaught = false
    ∧ (run_recipe_v3 env (.ok ⟨s, txt, some j⟩) w t).exitCode = 1
    ∧ (run_recipe_v3 env (.ok ⟨s, txt, some j⟩) true t).writes
        = [[("execution_time", .str t), ("recipe_id", jsonOfOptStr env.recipe_id),
            ("status", .str "failed"),
            ("error", .str ("Unexpected error: " ++ attrErrorStr))]]
    ∧ ((run_recipe_v3 env net w t).outcome = .completed d b →
        ∃ resp fields, net = .ok resp ∧ resp.json = some (.obj fields)) := by
  have hcnd : ((s == 200 || s == 201) = true) := by
    rcases hs with rfl | rfl <;> decide
  refine ⟨?_, ?_, ?_, ?_, ?_⟩
  · rw [run_recipe_v3_of_configOk env _ w t hc]
    simp only [run_v3_net, classify_v3]
    rw [if_pos hcnd]
    cases j with
    | obj fields => exact Bool.noConfusion hj
    | null => rfl
    | bool bb => rfl
    | num n => rfl
    | str sv => rfl
    | arr es => rfl
  · rw [run_recipe_v3_of_configOk env _ w t hc]
    exact classify_v3_not_uncaught env (mkInputData env) _ t
  · rw [run_recipe_v3_of_configOk env _ w t hc]
    simp only [run_v3_net, classify_v3]
    rw [if_pos hcnd]
    cases j with
    | obj fields => exact Bool.noConfusion hj
    | null => rfl
    | bool bb => rfl
    | num n => rfl
    | str sv => rfl
    | arr es => rfl
  · rw [run_recipe_v3_of_configOk env _ true t hc]
    simp only [run_v3_net, classify_v3]
    rw [if_pos hcnd]
    cases j with
    | obj fields => exact Bool.noConfusion hj
    | null => simp [save_log, dictMerge, dictInsert]
    | bool bb => simp [save_log, dictMerge, dictInsert]
    | num n => simp [save_log, dictMerge, dictInsert]
    | str sv => simp [save_log, dictMerge, dictInsert]
    | arr es => simp [save_log, dictMerge, dictInsert]
  · intro hcomp
    rw [run_recipe_v3_of_configOk env net w t hc] at hcomp
    replace hcomp : (classify_v3 env (mkInputData env) net t).1 = .completed d b := hcomp
    cases net with
    | timeout => exact Outcome.noConfusion hcomp
    | transportError e => exact Outcome.noConfusion hcomp
    | ok resp =>
        obtain ⟨s2, txt2, bj2⟩ := resp
        simp only [classify_v3] at hcomp
        by_cases hcnd2 : ((s2 == 200 || s2 == 201) = true)
        · rw [if_pos hcnd2] at hcomp
          cases bj2 with
          | none => exact Outcome.noConfusion hcomp
          | some body =>
              cases body with
              | obj fields => exact ⟨_, fields, rfl, rfl⟩
              | null => exact Outcome.noConfusion hcomp
              | bool bb => exact Outcome.noConfusion hcomp
              | num n => exact Outcome.noConfusion hcomp
              | str sv => exact Outcome.noConfusion hcomp
              | arr es => exact Outcome.noConfusion hcomp
        · rw [if_neg hcnd2] at hcomp
          exact Outcome.noConfusion hcomp

/-- C10 witness: a 200 response whose body is the JSON array `[]` is caught:
Failed outcome, no uncaught fault, exit 1. -/
theorem c10_confirmed_witness :
    (run_recipe_v3 env0 (.ok ⟨200, "x", some (.arr [])⟩) true "T").outcome
        = .failed ("Unexpected error: " ++ attrErrorStr)
    ∧ (run_recipe_v3 env0 (.ok ⟨200, "x", some (.arr [])⟩) true "T").exitCode = 1 :=
  ⟨(c10_confirmed env0 200 "x" "T" (.arr []) true .timeout .null false (by decide)
      (Or.inl rfl) (by decide)).1,
   (c10_confirmed env0 200 "x" "T" (.arr []) true .timeout .null false (by decide)
      (Or.inl rfl) (by decide)).2.2.1⟩
